import Mathlib

set_option autoImplicit false

namespace Smeagol

/-!
Shallow embedding of the libSmeagol settings store (pocket.py, timerPocket.py,
nonVolatilePocket.py).  Python values are modelled as finite trees, Python
dictionaries as association lists with unique keys in insertion order, and
monotonic time as natural numbers.  Machine-level aspects that the claims do
not touch (IEEE-754 rounding of CPython floats, Unicode case folding beyond
ASCII, the JSON byte encoding) are abstracted as noted at each definition.
-/

/-- A Python value as stored in a Pocket: None, bool, int, float, str, list or
dict.  CPython floats are modelled as exact rationals; every numeric literal
appearing in the claims is exactly representable, so no rounding is involved. -/
inductive PyVal where
  | none
  | bool (b : Bool)
  | int (n : Int)
  | float (q : ℚ)
  | str (s : String)
  | list (xs : List PyVal)
  | dict (d : List (String × PyVal))

/-- A Python dict with string keys, in insertion order.  The store only ever
builds dicts through item assignment, so keys are unique. -/
abbrev PyDict := List (String × PyVal)

/-- Python dict lookup d[key] (by exact key equality). -/
def dictLookup : PyDict → String → Option PyVal
  | [], _ => Option.none
  | (k, v) :: rest, key => if k = key then some v else dictLookup rest key

/-- Python dict item assignment d[key] = v: replaces in place when the key is
present, appends otherwise (insertion order is preserved). -/
def dictInsert : PyDict → String → PyVal → PyDict
  | [], key, v => [(key, v)]
  | (k, w) :: rest, key, v =>
      if k = key then (key, v) :: rest else (k, w) :: dictInsert rest key v

/-- The numeric value of a Python bool, int or float, if any.  Python compares
numbers across these three types by value (True == 1 == 1.0). -/
def pyRatOf : PyVal → Option ℚ
  | PyVal.bool b => some (if b then 1 else 0)
  | PyVal.int n => some (n : ℚ)
  | PyVal.float q => some q
  | _ => Option.none

mutual

/-- Python structural equality (the == used by Pocket.set via !=) on values:
numbers compare by value across bool/int/float, strings by content, lists
pointwise, dicts by key set and per-key values. -/
def pyEqV : PyVal → PyVal → Bool
  | PyVal.str s1, PyVal.str s2 => s1 == s2
  | PyVal.none, PyVal.none => true
  | PyVal.list xs, PyVal.list ys => pyEqL xs ys
  | PyVal.dict d1, PyVal.dict d2 => d1.length == d2.length && pyEqD d1 d2
  | v1, v2 =>
      match pyRatOf v1, pyRatOf v2 with
      | some q1, some q2 => q1 == q2
      | _, _ => false

/-- Pointwise Python equality of two lists. -/
def pyEqL : List PyVal → List PyVal → Bool
  | [], [] => true
  | x :: xs, y :: ys => pyEqV x y && pyEqL xs ys
  | _, _ => false

/-- Every entry of the first dict is present with an equal value in the second;
together with equal lengths (and the unique-key representation invariant) this
is Python dict equality. -/
def pyEqD : List (String × PyVal) → PyDict → Bool
  | [], _ => true
  | kv :: rest, d2 =>
      (match dictLookup d2 kv.1 with
       | some v2 => pyEqV kv.2 v2
       | Option.none => false) && pyEqD rest d2

end

/-- Python structural equality on values. -/
def pyEq (v1 v2 : PyVal) : Bool := pyEqV v1 v2

/-! ## Casting machinery (pocket.py)

Pocket.__DECIMAL_NUMBER_EXPRESSION is the regular expression
^-?\d+(,\d+)*(\.\d+(e\d+)?)?$ and Pocket.__castSafe implements the typed
casts used by getAs*/setAs*. -/

/-- The kinds of Python exception this development distinguishes. -/
inductive PyErr where
  | valueError
  | typeError
  | assertionError
  | osError
deriving DecidableEq

/-- The four target types passed to Pocket.__castSafe. -/
inductive PyType where
  | int
  | float
  | str
  | bool
deriving DecidableEq

/-- Consume one-or-more ASCII digits from the front; returns the rest on
success.  The regex class \d is modelled as ASCII digits (CPython would also
accept other Unicode decimal digits; no claim involves those). -/
def takeDigits1 (cs : List Char) : Option (List Char) :=
  if (cs.takeWhile Char.isDigit).isEmpty then Option.none
  else some (cs.dropWhile Char.isDigit)

/-- Consume the (,\d+)* comma groups of the decimal regex.  The fuel starts at
the length of the input; each round consumes at least two characters. -/
def commaGroupsConsume : Nat → List Char → List Char
  | 0, cs => cs
  | Nat.succ fuel, cs =>
      match cs with
      | ',' :: rest =>
          match takeDigits1 rest with
          | some rest2 => commaGroupsConsume fuel rest2
          | Option.none => cs
      | _ => cs

/-- re.match of the anchored pattern ^-?\d+(,\d+)*(\.\d+(e\d+)?)?$ against the
whole string.  All alternatives in the pattern start with distinct characters,
so the greedy matcher below agrees with the backtracking regex engine. -/
def decimalMatch (s : String) : Bool :=
  let cs0 := s.data
  let cs1 := match cs0 with
    | '-' :: rest => rest
    | _ => cs0
  match takeDigits1 cs1 with
  | Option.none => false
  | some rest =>
      let rest2 := commaGroupsConsume rest.length rest
      match rest2 with
      | [] => true
      | '.' :: r2 =>
          match takeDigits1 r2 with
          | Option.none => false
          | some r3 =>
              match r3 with
              | [] => true
              | 'e' :: r4 =>
                  match takeDigits1 r4 with
                  | some [] => true
                  | _ => false
              | _ => false
      | _ => false

/-- Modelled from the claim wording, for comparison with the code regex: a
decimal-number pattern of optional sign, digits, optional fractional part,
optional exponent.  This differs from __DECIMAL_NUMBER_EXPRESSION, which also
allows comma-separated digit groups and only allows an (unsigned) exponent
after a fractional part. -/
def specDecimalShape (s : String) : Bool :=
  let cs0 := s.data
  let cs1 := match cs0 with
    | '-' :: rest => rest
    | '+' :: rest => rest
    | _ => cs0
  match takeDigits1 cs1 with
  | Option.none => false
  | some rest =>
      let afterFrac : Option (List Char) :=
        match rest with
        | '.' :: r2 => takeDigits1 r2
        | _ => some rest
      match afterFrac with
      | Option.none => false
      | some rest2 =>
          match rest2 with
          | [] => true
          | 'e' :: r3 =>
              let r4 := match r3 with
                | '-' :: r => r
                | '+' :: r => r
                | _ => r3
              match takeDigits1 r4 with
              | some [] => true
              | _ => false
          | _ => false

/-- The numeric value of a run of ASCII digits. -/
def digitsToNat (ds : List Char) : Nat :=
  ds.foldl (fun acc c => acc * 10 + (c.toNat - 48)) 0

/-- The CPython float() string parse, on the plain decimal forms this program
feeds it: optional sign, digits with optional fractional part and optional
signed exponent (also accepting the ".5" and "5." shapes).  Whitespace,
underscores and inf/nan are never passed in by this program and are omitted.
IEEE-754 rounding is abstracted away: the exact decimal value is returned;
every string this development evaluates on is exactly representable or its
truncation is unaffected by rounding. -/
def pyFloatParse (s : String) : Option ℚ :=
  let cs0 := s.data
  let signNeg : Bool := match cs0 with
    | '-' :: _ => true
    | _ => false
  let cs1 := match cs0 with
    | '-' :: rest => rest
    | '+' :: rest => rest
    | _ => cs0
  let intDigits := cs1.takeWhile Char.isDigit
  let cs2 := cs1.dropWhile Char.isDigit
  let fracDigits := match cs2 with
    | '.' :: rest => rest.takeWhile Char.isDigit
    | _ => []
  let cs3 := match cs2 with
    | '.' :: rest => rest.dropWhile Char.isDigit
    | _ => cs2
  if intDigits.isEmpty ∧ fracDigits.isEmpty then Option.none
  else
    let mag : ℚ :=
      (digitsToNat intDigits : ℚ) +
        (digitsToNat fracDigits : ℚ) / ((10 ^ fracDigits.length : Nat) : ℚ)
    let mantissa : ℚ := if signNeg then -mag else mag
    match cs3 with
    | [] => some mantissa
    | 'e' :: rest => pyFloatParseExp mantissa rest
    | 'E' :: rest => pyFloatParseExp mantissa rest
    | _ => Option.none
where
  /-- Parse the exponent suffix after the e, applying it to the mantissa. -/
  pyFloatParseExp (mantissa : ℚ) (rest : List Char) : Option ℚ :=
    let eneg : Bool := match rest with
      | '-' :: _ => true
      | _ => false
    let rest2 := match rest with
      | '-' :: r => r
      | '+' :: r => r
      | _ => rest
    let eDigits := rest2.takeWhile Char.isDigit
    let rest3 := rest2.dropWhile Char.isDigit
    if eDigits.isEmpty ∨ ¬rest3.isEmpty then Option.none
    else
      let e := digitsToNat eDigits
      some (if eneg then mantissa / ((10 ^ e : Nat) : ℚ)
            else mantissa * ((10 ^ e : Nat) : ℚ))

/-- The CPython int() string parse: optional sign then digits (whitespace and
underscores never occur in this development and are omitted). -/
def pyIntParse (s : String) : Option Int :=
  let cs0 := s.data
  let signNeg : Bool := match cs0 with
    | '-' :: _ => true
    | _ => false
  let cs1 := match cs0 with
    | '-' :: rest => rest
    | '+' :: rest => rest
    | _ => cs0
  if cs1.isEmpty ∨ ¬(cs1.all Char.isDigit) then Option.none
  else some (if signNeg then -(digitsToNat cs1 : Int) else (digitsToNat cs1 : Int))

/-- int() applied to a float truncates toward zero. -/
def ratTrunc (q : ℚ) : Int := Int.tdiv q.num (q.den : Int)

/-- The Python truth value of an object, as computed by bool(): nonzero for
numbers, nonempty for strings and containers.  bool() never raises. -/
def pyTruthy : PyVal → Bool
  | PyVal.none => false
  | PyVal.bool b => b
  | PyVal.int n => n != 0
  | PyVal.float q => q != 0
  | PyVal.str s => !s.isEmpty
  | PyVal.list xs => !xs.isEmpty
  | PyVal.dict d => !d.isEmpty

/-- The CPython int() constructor on a value: exact for bool/int/float/str;
int(None), int(list) and int(dict) raise TypeError, a non-numeric string
raises ValueError. -/
def pyIntOf : PyVal → Except PyErr Int
  | PyVal.bool b => Except.ok (if b then 1 else 0)
  | PyVal.int n => Except.ok n
  | PyVal.float q => Except.ok (ratTrunc q)
  | PyVal.str s =>
      match pyIntParse s with
      | some n => Except.ok n
      | Option.none => Except.error PyErr.valueError
  | _ => Except.error PyErr.typeError

/-- The CPython float() constructor on a value, mirroring pyIntOf. -/
def pyFloatOf : PyVal → Except PyErr ℚ
  | PyVal.bool b => Except.ok (if b then 1 else 0)
  | PyVal.int n => Except.ok (n : ℚ)
  | PyVal.float q => Except.ok q
  | PyVal.str s =>
      match pyFloatParse s with
      | some q => Except.ok q
      | Option.none => Except.error PyErr.valueError
  | _ => Except.error PyErr.typeError

/-- The CPython str() constructor.  str() is total; only the int, bool and str
renderings are ever inspected by this development, so the float, list and dict
renderings are schematic. -/
def pyStrOf : PyVal → String
  | PyVal.none => "None"
  | PyVal.bool b => if b then "True" else "False"
  | PyVal.int n => toString n
  | PyVal.float q => toString q
  | PyVal.str s => s
  | PyVal.list _ => "[...]"
  | PyVal.dict _ => "\x7b...\x7d"

/-- to_type(value) for the four target types of Pocket.__castSafe. -/
def pyCast (t : PyType) (v : PyVal) : Except PyErr PyVal :=
  match t with
  | PyType.str => Except.ok (PyVal.str (pyStrOf v))
  | PyType.bool => Except.ok (PyVal.bool (pyTruthy v))
  | PyType.int =>
      match pyIntOf v with
      | Except.ok n => Except.ok (PyVal.int n)
      | Except.error e => Except.error e
  | PyType.float =>
      match pyFloatOf v with
      | Except.ok q => Except.ok (PyVal.float q)
      | Except.error e => Except.error e

/-- Pocket.__castSafe(value, to_type, default).  The special branch fires when
to_type is exactly bool and value is exactly a str; str.lower is modelled by
String.toLower (all compared literals are ASCII).  The nested call
self.__castSafe(value, float) is inlined: for a string argument and a float
target it is float(value) with a caught ValueError returning the inner default
None.  Only ValueError is caught by the except clause; in particular the
TypeError raised by int(None) propagates. -/
def castSafe (value : PyVal) (to_type : PyType) (default : PyVal) :
    Except PyErr PyVal :=
  match to_type, value with
  | PyType.bool, PyVal.str s =>
      let string_value := s.toLower
      if string_value = "no" ∨ string_value = "false" ∨ string_value = "0" then
        Except.ok (PyVal.bool false)
      else if decimalMatch s then
        let inner : PyVal :=
          match pyFloatParse s with
          | some q => PyVal.float q
          | Option.none => PyVal.none
        match pyIntOf inner with
        | Except.ok n => Except.ok (PyVal.bool (n != 0))
        | Except.error e => Except.error e
      else
        Except.ok (PyVal.bool true)
  | _, _ =>
      match pyCast to_type value with
      | Except.ok v => Except.ok v
      | Except.error PyErr.valueError => Except.ok default
      | Except.error e => Except.error e

/-- Pocket.__getAsType: value = self.get(key, default) (a deep copy, which is
the identity under this value semantics); if value is None return default,
else self.__castSafe(value, to_type, default). -/
def getAsType (prefs : PyDict) (key : String) (default : PyVal)
    (to_type : PyType) : Except PyErr PyVal :=
  match (dictLookup prefs key).getD default with
  | PyVal.none => Except.ok default
  | v => castSafe v to_type default

/-! ## Pocket construction and mutation (pocket.py) -/

/-- The argument shapes accepted by Pocket.__init__: None, a plain dict, or
another Pocket (fromPocket carries that pockets internal __preferences dict,
under value semantics). -/
inductive InitArg where
  | fromNone
  | fromDict (d : PyDict)
  | fromPocket (p : PyDict)

/-- isinstance(x, dict): true only for a plain dict argument; a Pocket is not
a dict subclass. -/
def pyIsInstanceDict : InitArg → Bool
  | InitArg.fromDict _ => true
  | _ => false

/-- Pocket.__init__ from pocket.py.  The None branch starts empty; the Pocket
branch deep-copies the other pockets __preferences and then executes
assert isinstance(preferences, dict), which raises AssertionError because the
argument is a Pocket; the dict branch stores the argument by reference
(reference semantics are modelled separately for the heap-based claims). -/
def pocketInit : InitArg → Except PyErr PyDict
  | InitArg.fromNone => Except.ok []
  | InitArg.fromPocket p =>
      let prefs := p
      if pyIsInstanceDict (InitArg.fromPocket p) then Except.ok prefs
      else Except.error PyErr.assertionError
  | InitArg.fromDict d => Except.ok d

/-- The outcome of Pocket.set: the updated dict and the number of times the
change event fired during the call. -/
structure PSetResult where
  prefs : PyDict
  events : Nat

/-- Pocket.set: under the lock, if the key is absent or the stored value
differs (Python !=) from the new one, store it and fire _handleOnChangeEvent
once; otherwise do nothing. -/
def pocketSet (prefs : PyDict) (key : String) (value : PyVal) : PSetResult :=
  match dictLookup prefs key with
  | Option.none => { prefs := dictInsert prefs key value, events := 1 }
  | some old =>
      if pyEq old value then { prefs := prefs, events := 0 }
      else { prefs := dictInsert prefs key value, events := 1 }

/-- Pocket.get(key, None): the stored value (a deep copy, which is the
identity under value semantics) or None when absent. -/
def pocketGet (prefs : PyDict) (key : String) : PyVal :=
  (dictLookup prefs key).getD PyVal.none

/-! ## TimerPocket: the debounce loop (timerPocket.py) -/

/-- The scheduler state the background loop reads: the last-change timestamp
(None when disarmed) and the configured minimal interval.  Monotonic time is
modelled as Nat. -/
structure TimerState where
  lastTimerCheck : Option Nat
  timerInterval : Nat

/-- TimerPocket._startTimerCheck: arm (set the timestamp to now) when
reset_start is true or the timer is not yet armed. -/
def startTimerCheck (s : TimerState) (now : Nat) (resetStart : Bool) :
    TimerState :=
  if resetStart || s.lastTimerCheck.isNone then
    { s with lastTimerCheck := some now }
  else s

/-- One iteration of the body of TimerPocket.__run, evaluated at monotonic
time now (taken after the 1-second poll sleep): when armed and strictly past
lastTimerCheck + interval, call __callExecuteAction, which invokes the flush
action and then clears the timestamp.  Returns the new state and whether the
flush action was invoked. -/
def runIteration (s : TimerState) (now : Nat) : TimerState × Bool :=
  match s.lastTimerCheck with
  | Option.none => (s, false)
  | some t =>
      if t + s.timerInterval < now then
        ({ s with lastTimerCheck := Option.none }, true)
      else
        (s, false)

/-- A run of consecutive loop iterations (no intervening change event) at the
given sequence of times, counting how often the flush action was invoked. -/
def runIterations : TimerState → List Nat → TimerState × Nat
  | s, [] => (s, 0)
  | s, now :: rest =>
      let r := runIteration s now
      let rr := runIterations r.1 rest
      (rr.1, (if r.2 then 1 else 0) + rr.2)

/-! ## TimerPocket: thread lifecycle (timerPocket.py)

stop() sets __running = False and then waits on __thread_finished_event; the
loop sets that event in its finally block when it exits.  __startThread sets
__running = True and starts a fresh loop thread; it never clears the event. -/

/-- The lifecycle state shared between callers and the loop thread. -/
structure LifeState where
  running : Bool
  threadAlive : Bool
  finishedEvent : Bool

/-- State of a TimerPocket before any thread was started. -/
def initialLife : LifeState :=
  { running := false, threadAlive := false, finishedEvent := false }

/-- TimerPocket.__startThread: sets __running and launches a new loop thread.
Note: the finished event is NOT cleared here (nor anywhere else). -/
def startThread (s : LifeState) : LifeState :=
  { s with running := true, threadAlive := true }

/-- The loop thread observes __running = False, leaves the while loop and runs
its finally block, setting the finished event. -/
def threadExit (s : LifeState) : LifeState :=
  { s with threadAlive := false, finishedEvent := true }

/-- The first line of TimerPocket.stop: self.__running = False. -/
def stopSignal (s : LifeState) : LifeState :=
  { s with running := false }

/-- The second line of TimerPocket.stop is self.__thread_finished_event.wait();
that call returns without blocking exactly when the event is already set. -/
def stopWaitUnblocked (s : LifeState) : Bool := s.finishedEvent

/-! ## NonVolatilePocket.__save: the atomic-replace protocol -/

/-- What a path holds on disk: nothing, a partially written serialization, or
a complete serialization of a dict (the JSON codec is abstract). -/
inductive FileState where
  | absent
  | incomplete
  | complete (d : PyDict)

/-- The slice of the filesystem __save touches: the parent directory, the
target file, and the sibling temp file <path>.new. -/
structure SaveFS where
  dirExists : Bool
  target : FileState
  temp : FileState

/-- The observable I/O events of one __save call, in program order. -/
inductive SaveEvent where
  | makeDirs
  | openTemp
  | writeTemp (d : PyDict)
  | flushTemp
  | fsyncTemp
  | closeTemp
  | renameTempToTarget
  | openDir
  | fsyncDir
  | closeDir
  | caughtAndLogged
  | syncAll

/-- The failure oracle: the fallible I/O steps of __save are numbered 1-10 in
program order, and the oracle names the step (if any) at which the operating
system raises an OSError. -/
def failsAt (o : Option Nat) (k : Nat) : Bool :=
  match o with
  | some j => j == k
  | Option.none => false

/-- Steps 8-10 of the try block: if hasattr(os, "O_DIRECTORY"), open the
parent directory, fsync it, and close it. -/
def nvSaveDirSync (fs : SaveFS) (evs : List SaveEvent) (o : Option Nat)
    (hasODir : Bool) : SaveFS × List SaveEvent × Option PyErr :=
  if hasODir then
    if failsAt o 8 then (fs, evs, some PyErr.osError)
    else if failsAt o 9 then (fs, evs ++ [SaveEvent.openDir], some PyErr.osError)
    else if failsAt o 10 then
      (fs, evs ++ [SaveEvent.openDir, SaveEvent.fsyncDir], some PyErr.osError)
    else
      (fs, evs ++ [SaveEvent.openDir, SaveEvent.fsyncDir, SaveEvent.closeDir],
        Option.none)
  else (fs, evs, Option.none)

/-- Step 7 of the try block: os.rename(temp_filename, target) is atomic; on
success the target now holds what the temp file held and the temp name is
gone; on failure nothing changes. -/
def nvSaveRename (fs : SaveFS) (evs : List SaveEvent) (o : Option Nat)
    (hasODir : Bool) : SaveFS × List SaveEvent × Option PyErr :=
  if failsAt o 7 then (fs, evs, some PyErr.osError)
  else
    nvSaveDirSync { fs with target := fs.temp, temp := FileState.absent }
      (evs ++ [SaveEvent.renameTempToTarget]) o hasODir

/-- Steps 2-6 of the try block: open the temp file for writing (creating or
truncating it), json.dump the tree into it, flush, fsync, and close it. -/
def nvSaveTemp (fs : SaveFS) (evs : List SaveEvent) (prefs : PyDict)
    (o : Option Nat) (hasODir : Bool) : SaveFS × List SaveEvent × Option PyErr :=
  if failsAt o 2 then (fs, evs, some PyErr.osError)
  else
    let fs2 := { fs with temp := FileState.incomplete }
    let evs2 := evs ++ [SaveEvent.openTemp]
    if failsAt o 3 then (fs2, evs2, some PyErr.osError)
    else
      let fs3 := { fs2 with temp := FileState.complete prefs }
      let evs3 := evs2 ++ [SaveEvent.writeTemp prefs]
      if failsAt o 4 then (fs3, evs3, some PyErr.osError)
      else if failsAt o 5 then
        (fs3, evs3 ++ [SaveEvent.flushTemp], some PyErr.osError)
      else if failsAt o 6 then
        (fs3, evs3 ++ [SaveEvent.flushTemp, SaveEvent.fsyncTemp],
          some PyErr.osError)
      else
        nvSaveRename fs3
          (evs3 ++ [SaveEvent.flushTemp, SaveEvent.fsyncTemp,
            SaveEvent.closeTemp]) o hasODir

/-- The whole try block of __save, starting with step 1:
if not os.path.exists(directory): os.makedirs(directory). -/
def nvSaveTry (fs : SaveFS) (prefs : PyDict) (o : Option Nat)
    (hasODir : Bool) : SaveFS × List SaveEvent × Option PyErr :=
  if fs.dirExists then nvSaveTemp fs [] prefs o hasODir
  else if failsAt o 1 then (fs, [], some PyErr.osError)
  else
    nvSaveTemp { fs with dirExists := true } [SaveEvent.makeDirs] prefs o
      hasODir

/-- Every exception the try block can raise (OSError from the I/O steps) is a
subclass of Exception, which the broad except clause catches. -/
def isSubclassOfException : PyErr → Bool := fun _ => true

/-- The result of one NonVolatilePocket.__save call. -/
structure SaveRun where
  fs : SaveFS
  events : List SaveEvent
  raised : Option PyErr

/-- NonVolatilePocket.__save: getAll() (pure under value semantics and never
None), then the try block, then except Exception: log.exception(...), then
os.sync().  POSIX sync() has no failure conditions, so the trailing os.sync()
outside the try block cannot raise. -/
def nvSave (fs : SaveFS) (prefs : PyDict) (o : Option Nat) (hasODir : Bool) :
    SaveRun :=
  let r := nvSaveTry fs prefs o hasODir
  match r.2.2 with
  | Option.none =>
      { fs := r.1, events := r.2.1 ++ [SaveEvent.syncAll],
        raised := Option.none }
  | some e =>
      if isSubclassOfException e then
        { fs := r.1,
          events := r.2.1 ++ [SaveEvent.caughtAndLogged, SaveEvent.syncAll],
          raised := Option.none }
      else
        { fs := r.1, events := r.2.1, raised := some e }

/-! ## NonVolatilePocket: sequential store-level operations -/

/-- The caller-visible state of a NonVolatilePocket, with the on-disk file
abstracted to the dict it holds (the atomic-replace mechanics are verified on
nvSave above). -/
structure NVState where
  prefs : PyDict
  file : Option PyDict
  lastTimerCheck : Option Nat
  running : Bool

/-- A one-entry store used by concrete witnesses: x maps to int 1, timer
disarmed, loop running, no file yet. -/
def sampleNV : NVState :=
  { prefs := [("x", PyVal.int 1)], file := Option.none,
    lastTimerCheck := Option.none, running := true }

/-- NonVolatilePocket inherits Pocket.set; every change event reaches
NonVolatilePocket._handleOnChangeEvent, which calls _startTimerCheck() with
the default reset_start = True, arming the timer at the current time. -/
def nvSet (s : NVState) (now : Nat) (key : String) (value : PyVal) : NVState :=
  let r := pocketSet s.prefs key value
  if r.events > 0 then
    { s with prefs := r.prefs, lastTimerCheck := some now }
  else
    { s with prefs := r.prefs }

/-- TimerPocket.stop, at this sequential level of abstraction: the loop is
signalled to stop (the thread-event race is analysed on LifeState above). -/
def nvStop (s : NVState) : NVState := { s with running := false }

/-- NonVolatilePocket.__load: read the file when it exists, else start empty
(decode failures also fall back to empty), then _setPreferences. -/
def nvLoad (s : NVState) : NVState :=
  { s with prefs := match s.file with
      | some d => d
      | Option.none => [] }

/-- NonVolatilePocket.forceSave, success path: __save serializes getAll() to
the target file. -/
def nvForceSave (s : NVState) : NVState := { s with file := some s.prefs }

/-- NonVolatilePocket.erase: stop(), os.remove (an OSError for a missing file
is caught and logged), _setPreferences(dict()); when restart_after_erase,
__load() (the file is gone, so the store stays empty) and _start(), which
clears the timer check, restarts the loop thread, and then calls
_startTimerCheck(), arming the timer at the current time. -/
def nvErase (s : NVState) (now : Nat) (restartAfterErase : Bool) : NVState :=
  let s1 := nvStop s
  let s2 := { s1 with file := Option.none }
  let s3 := { s2 with prefs := [] }
  if restartAfterErase then
    let s4 := nvLoad s3
    { s4 with running := true, lastTimerCheck := some now }
  else s3

/-- NonVolatilePocket.backupAndSetup: snapshot each key in keys_to_backup with
self.get (absent keys snapshot as None), erase() with restart, re-set each
snapshot, set each extra setting, then forceSave(). -/
def nvBackupAndSetup (s : NVState) (now : Nat) (keysToBackup : List String)
    (settingsToAdd : PyDict) : NVState :=
  let saved : PyDict := keysToBackup.map fun k => (k, pocketGet s.prefs k)
  let s1 := nvErase s now true
  let s2 := saved.foldl (fun acc kv => nvSet acc now kv.1 kv.2) s1
  let s3 := settingsToAdd.foldl (fun acc kv => nvSet acc now kv.1 kv.2) s2
  nvForceSave s3

/-! ## Heap model for Python reference semantics (getAsSubPocket)

Pocket.__init__ stores a plain dict argument by reference, and
getAsSubPocket wraps the stored dict object itself in a fresh Pocket, so the
sub-pocket and the parent share one dict object.  To express this the nested
dicts live on an explicit heap: an address indexes a dict object, and a dict
entry is a primitive or a reference to another dict object. -/

/-- A value under reference semantics: a primitive, or a reference to a dict
object on the heap. -/
inductive HVal where
  | hNone
  | hInt (n : Int)
  | hStr (s : String)
  | hRef (a : Nat)
deriving DecidableEq

/-- A dict object: association list in insertion order, unique keys. -/
abbrev HDict := List (String × HVal)

/-- The heap: dict objects indexed by address. -/
abbrev Heap := List HDict

/-- Dereference an address (addresses used by the program are in range). -/
def heapGet (h : Heap) (a : Nat) : HDict := h.getD a []

/-- Overwrite the dict object at an address. -/
def heapSet (h : Heap) (a : Nat) (d : HDict) : Heap := h.set a d

/-- Heap-level dict lookup. -/
def dictLookupH : HDict → String → Option HVal
  | [], _ => Option.none
  | (k, v) :: rest, key => if k = key then some v else dictLookupH rest key

/-- Heap-level dict item assignment. -/
def dictInsertH : HDict → String → HVal → HDict
  | [], key, v => [(key, v)]
  | (k, w) :: rest, key, v =>
      if k = key then (key, v) :: rest else (k, w) :: dictInsertH rest key v

/-- Python == on heap values, bounded by fuel to cross references; the heaps
built by this program are acyclic with reference chains shorter than the heap,
so the fuel chosen by hValEq computes the exact answer. -/
def hValEqF : Nat → Heap → HVal → HVal → Bool
  | _, _, HVal.hNone, HVal.hNone => true
  | _, _, HVal.hInt a, HVal.hInt b => a == b
  | _, _, HVal.hStr a, HVal.hStr b => a == b
  | Nat.succ fuel, h, HVal.hRef a, HVal.hRef b =>
      let d1 := heapGet h a
      let d2 := heapGet h b
      d1.length == d2.length &&
        d1.all fun kv =>
          match dictLookupH d2 kv.1 with
          | some v2 => hValEqF fuel h kv.2 v2
          | Option.none => false
  | _, _, _, _ => false

/-- Python == on heap values. -/
def hValEq (h : Heap) (v1 v2 : HVal) : Bool :=
  hValEqF (h.length + 1) h v1 v2

/-- Pocket.set under reference semantics: item assignment on the dict object
this pocket wraps (at address p), firing the change event when the key is
absent or the value differs.  Returns the heap and the event count. -/
def hPocketSet (h : Heap) (p : Nat) (key : String) (v : HVal) : Heap × Nat :=
  let d := heapGet h p
  match dictLookupH d key with
  | Option.none => (heapSet h p (dictInsertH d key v), 1)
  | some old =>
      if hValEq h old v then (h, 0)
      else (heapSet h p (dictInsertH d key v), 1)

/-- Pocket.getAsSubPocket under reference semantics: fetch
self.__preferences[key] without copying; on KeyError deep-copy the default {}
into a fresh object and set it; when the value is a dict object, return
Pocket(value) - which stores that same object by reference - after connecting
the sub-pockets change signal to the parents _handleOnChangeEvent; otherwise
log a warning and return None. -/
def hGetAsSubPocket (h : Heap) (p : Nat) (key : String) : Heap × Option Nat :=
  let d := heapGet h p
  match dictLookupH d key with
  | some (HVal.hRef a) => (h, some a)
  | some _ => (h, Option.none)
  | Option.none =>
      let newAddr := h.length
      let h2 := h ++ [[]]
      let h3 := (hPocketSet h2 p key (HVal.hRef newAddr)).1
      (h3, some newAddr)

/-- The mapping the parent pocket internally stores at key, dereferenced,
when it is a dict object. -/
def storedDictAt (h : Heap) (p : Nat) (key : String) : Option HDict :=
  match dictLookupH (heapGet h p) key with
  | some (HVal.hRef a) => some (heapGet h a)
  | _ => Option.none

/-! ## Helper lemmas -/

/-- One loop iteration either leaves the state untouched without flushing, or
flushes and disarms. -/
theorem runIteration_cases (s : TimerState) (now : Nat) :
    runIteration s now = (s, false) ∨
      ((runIteration s now).1.lastTimerCheck = Option.none ∧
        (runIteration s now).2 = true) := by
  cases hl : s.lastTimerCheck with
  | none => exact Or.inl (by simp [runIteration, hl])
  | some t =>
      by_cases hlt : t + s.timerInterval < now
      · exact Or.inr (by simp [runIteration, hl, hlt])
      · exact Or.inl (by simp [runIteration, hl, hlt])

/-- A disarmed scheduler never flushes during a run of loop iterations with no
intervening change event. -/
theorem runIterations_disarmed (times : List Nat) :
    ∀ s : TimerState, s.lastTimerCheck = Option.none →
      (runIterations s times).2 = 0 := by
  induction times with
  | nil => intro s _; rfl
  | cons now rest ih =>
      intro s h
      have hit : runIteration s now = (s, false) := by
        simp [runIteration, h]
      simp [runIterations, hit, ih s h]

/-- Dereferencing an untouched address after overwriting another one. -/
theorem heapGet_set_ne (h : Heap) (a p : Nat) (d : HDict) (hne : p ≠ a) :
    heapGet (heapSet h a d) p = heapGet h p := by
  unfold heapGet heapSet
  rw [List.getD_eq_getElem?_getD, List.getD_eq_getElem?_getD,
    List.getElem?_set_ne (fun hh => hne hh.symm)]

/-- Discharge a membership negation for the boolean-cast string set after
evaluating toLower on a concrete string. -/
theorem toLower_outside_set (s l : String) (hl : s.toLower = l)
    (h1 : l ≠ "no") (h2 : l ≠ "false") (h3 : l ≠ "0") :
    ¬(s.toLower = "no" ∨ s.toLower = "false" ∨ s.toLower = "0") := by
  rw [hl]
  rintro (h | h | h)
  · exact h1 h
  · exact h2 h
  · exact h3 h

/-! ## Claim theorems -/

/-- C1: for every armed Debounce Scheduler state, the background loop invokes
the flush action no earlier than interval after the most recent arm (the most
recent change event sets lastTimerCheck to the current time), and invoking the
flush action transitions the scheduler to Disarmed, so between two consecutive
arms at most one loop-driven flush occurs. -/
theorem timerLoop_flush_after_interval_once :
    (∀ (s : TimerState) (now : Nat),
        (runIteration s now).2 = true →
        ∃ t, s.lastTimerCheck = some t ∧ t + s.timerInterval ≤ now ∧
          (runIteration s now).1.lastTimerCheck = Option.none) ∧
    (∀ (s : TimerState) (now : Nat),
        (startTimerCheck s now true).lastTimerCheck = some now) ∧
    (∀ (s : TimerState) (times : List Nat),
        (runIterations s times).2 ≤ 1) := by
  refine ⟨?_, ?_, ?_⟩
  · intro s now hfired
    cases hl : s.lastTimerCheck with
    | none => simp [runIteration, hl] at hfired
    | some t =>
        by_cases hlt : t + s.timerInterval < now
        · exact ⟨t, rfl, Nat.le_of_lt hlt, by simp [runIteration, hl, hlt]⟩
        · simp [runIteration, hl, hlt] at hfired
  · intro s now
    simp [startTimerCheck]
  · intro s times
    induction times generalizing s with
    | nil => exact Nat.zero_le 1
    | cons now rest ih =>
        rcases runIteration_cases s now with hsame | ⟨hdis, hfired⟩
        · have := ih s
          simpa [runIterations, hsame] using this
        · have hrest : (runIterations (runIteration s now).1 rest).2 = 0 :=
            runIterations_disarmed rest _ hdis
          simp [runIterations, hfired, hrest]

/-- C1 witness: a concrete armed state with interval 5, armed at time 0,
iterated at time 6, flushes, no earlier than the interval, and disarms. -/
theorem timerLoop_flush_after_interval_once_witness :
    (runIteration { lastTimerCheck := some 0, timerInterval := 5 } 6).2 = true ∧
    (∃ t, ({ lastTimerCheck := some 0, timerInterval := 5 } :
        TimerState).lastTimerCheck = some t ∧ t + 5 ≤ 6 ∧
      (runIteration { lastTimerCheck := some 0, timerInterval := 5 } 6).1.lastTimerCheck
        = Option.none) := by
  exact ⟨rfl,
    timerLoop_flush_after_interval_once.1
      { lastTimerCheck := some 0, timerInterval := 5 } 6 rfl⟩

/-- C2 (code_bug exhibit): a first stop() does block (the finished event starts
clear), but __startThread never clears the finished event, so after a
stop()/_start() restart cycle the next stop() finds the event still set from
the first loop exit and returns immediately while the new loop thread is still
alive; that live loop can then invoke one more flush (here: armed at 0 with
interval 5, iterated at 6). -/
theorem stop_after_restart_returns_with_live_thread :
    stopWaitUnblocked (stopSignal (startThread initialLife)) = false ∧
    (stopWaitUnblocked
        (stopSignal (startThread (threadExit (stopSignal (startThread initialLife)))))
      = true ∧
      (stopSignal (startThread (threadExit (stopSignal (startThread initialLife))))).threadAlive
        = true) ∧
    (runIteration { lastTimerCheck := some 0, timerInterval := 5 } 6).2 = true := by
  exact ⟨rfl, ⟨rfl, rfl⟩, rfl⟩

/-- C3: for every filesystem state, store snapshot and I/O failure at any
fallible step of the save sequence, __save (hence flush()/forceSave()) raises
nothing to its caller: the broad except clause catches and logs every
exception from the try block, the trailing sync cannot fail, and the target
path always holds either the previous file or the complete new serialization,
never a partial write. -/
theorem save_never_raises_and_target_stays_valid :
    ∀ (fs : SaveFS) (prefs : PyDict) (o : Option Nat) (hasODir : Bool),
      (nvSave fs prefs o hasODir).raised = Option.none ∧
      ((nvSave fs prefs o hasODir).fs.target = fs.target ∨
        (nvSave fs prefs o hasODir).fs.target = FileState.complete prefs) ∧
      (SaveEvent.caughtAndLogged ∈ (nvSave fs prefs o hasODir).events ∨
        ((nvSave fs prefs o hasODir).fs.target = FileState.complete prefs ∧
          (nvSave fs prefs o hasODir).fs.temp = FileState.absent)) := by
  intro fs prefs o hod
  rcases o with _ | k
  · cases fs with
    | mk de tg tp =>
        cases de <;> cases hod <;>
          simp [nvSave, nvSaveTry, nvSaveTemp, nvSaveRename, nvSaveDirSync,
            failsAt, isSubclassOfException]
  · rcases Nat.lt_or_ge k 11 with hk | hk
    · interval_cases k <;>
        · cases fs with
          | mk de tg tp =>
              cases de <;> cases hod <;>
                simp [nvSave, nvSaveTry, nvSaveTemp, nvSaveRename,
                  nvSaveDirSync, failsAt, isSubclassOfException]
    · have h1 : failsAt (some k) 1 = false := by
        simp [failsAt, beq_eq_false_iff_ne]; omega
      have h2 : failsAt (some k) 2 = false := by
        simp [failsAt, beq_eq_false_iff_ne]; omega
      have h3 : failsAt (some k) 3 = false := by
        simp [failsAt, beq_eq_false_iff_ne]; omega
      have h4 : failsAt (some k) 4 = false := by
        simp [failsAt, beq_eq_false_iff_ne]; omega
      have h5 : failsAt (some k) 5 = false := by
        simp [failsAt, beq_eq_false_iff_ne]; omega
      have h6 : failsAt (some k) 6 = false := by
        simp [failsAt, beq_eq_false_iff_ne]; omega
      have h7 : failsAt (some k) 7 = false := by
        simp [failsAt, beq_eq_false_iff_ne]; omega
      have h8 : failsAt (some k) 8 = false := by
        simp [failsAt, beq_eq_false_iff_ne]; omega
      have h9 : failsAt (some k) 9 = false := by
        simp [failsAt, beq_eq_false_iff_ne]; omega
      have h10 : failsAt (some k) 10 = false := by
        simp [failsAt, beq_eq_false_iff_ne]; omega
      cases fs with
      | mk de tg tp =>
          cases de <;> cases hod <;>
            simp [nvSave, nvSaveTry, nvSaveTemp, nvSaveRename, nvSaveDirSync,
              isSubclassOfException, h1, h2, h3, h4, h5, h6, h7, h8, h9, h10]

/-- C4: with no I/O failure (and O_DIRECTORY available, as on POSIX), __save
performs exactly the atomic-replace sequence in program order - create the
directory if missing, write the serialized tree to the temp sibling, flush and
fsync it before closing, rename it over the target, open and fsync the parent
directory - and afterwards the temp sibling does not exist and the target
holds the complete new serialization. -/
theorem save_success_performs_atomic_replace_sequence :
    ∀ (fs : SaveFS) (prefs : PyDict),
      (nvSave fs prefs Option.none true).events
        = (if fs.dirExists then [] else [SaveEvent.makeDirs]) ++
          [SaveEvent.openTemp, SaveEvent.writeTemp prefs, SaveEvent.flushTemp,
            SaveEvent.fsyncTemp, SaveEvent.closeTemp,
            SaveEvent.renameTempToTarget, SaveEvent.openDir, SaveEvent.fsyncDir,
            SaveEvent.closeDir, SaveEvent.syncAll] ∧
      (nvSave fs prefs Option.none true).fs.temp = FileState.absent ∧
      (nvSave fs prefs Option.none true).fs.target = FileState.complete prefs ∧
      (nvSave fs prefs Option.none true).raised = Option.none := by
  intro fs prefs
  cases fs with
  | mk dirExists target temp =>
      cases dirExists <;> exact ⟨rfl, rfl, rfl, rfl⟩

/-- C5 counterexample: the claim - that the sub-store is built from a deep
copy, so mutating it does not change the parent-stored mapping - fails on the
code.  Parent pocket at address 0 stores the dict object at address 1 under
key k; getAsSubPocket returns a pocket over that same address, and setting a
through the sub-pocket changes the mapping the parent stores at k from
a maps-to 1 to a maps-to 2, with no re-set into the parent. -/
theorem getAsSubPocket_deep_copy_counterexample :
    (hGetAsSubPocket [[("k", HVal.hRef 1)], [("a", HVal.hInt 1)]] 0 "k").2
      = some 1 ∧
    storedDictAt [[("k", HVal.hRef 1)], [("a", HVal.hInt 1)]] 0 "k"
      = some [("a", HVal.hInt 1)] ∧
    storedDictAt
        (hPocketSet [[("k", HVal.hRef 1)], [("a", HVal.hInt 1)]] 1 "a"
          (HVal.hInt 2)).1 0 "k"
      = some [("a", HVal.hInt 2)] := by
  exact ⟨rfl, rfl, rfl⟩

/-- C5 amended: for every store holding a mapping value at key k, the
sub-store returned by getAsSubPocket(k) is a fresh Pocket wrapping the same
underlying dict object (no deep copy is taken), so mutating the returned
sub-store writes through: the parent-stored mapping at k afterwards is exactly
the sub-store dict object (and the sub-store change signal is additionally
connected to the parent change handler). -/
theorem getAsSubPocket_shares_parent_mapping :
    ∀ (h : Heap) (p a : Nat) (key k2 : String) (v2 : HVal),
      a ≠ p →
      dictLookupH (heapGet h p) key = some (HVal.hRef a) →
      (hGetAsSubPocket h p key).2 = some a ∧
      storedDictAt (hPocketSet h a k2 v2).1 p key
        = some (heapGet (hPocketSet h a k2 v2).1 a) := by
  intro h p a key k2 v2 hne hlook
  constructor
  · simp [hGetAsSubPocket, hlook]
  · have hcases : (hPocketSet h a k2 v2).1 = h ∨
        ∃ d, (hPocketSet h a k2 v2).1 = heapSet h a d := by
      cases hl2 : dictLookupH (heapGet h a) k2 with
      | none =>
          exact Or.inr ⟨dictInsertH (heapGet h a) k2 v2,
            by simp [hPocketSet, hl2]⟩
      | some old =>
          by_cases he : hValEq h old v2
          · exact Or.inl (by simp [hPocketSet, hl2, he])
          · exact Or.inr ⟨dictInsertH (heapGet h a) k2 v2,
              by simp [hPocketSet, hl2, he]⟩
    have hpar : heapGet (hPocketSet h a k2 v2).1 p = heapGet h p := by
      rcases hcases with hh | ⟨d, hh⟩
      · rw [hh]
      · rw [hh]
        exact heapGet_set_ne h a p d (fun hx => hne hx.symm)
    unfold storedDictAt
    rw [hpar, hlook]

/-- C5 amended witness: the write-through equation at the concrete heap of the
counterexample, with a different mutation. -/
theorem getAsSubPocket_shares_parent_mapping_witness :
    (hGetAsSubPocket [[("k", HVal.hRef 1)], [("a", HVal.hInt 1)]] 0 "k").2
      = some 1 ∧
    storedDictAt
        (hPocketSet [[("k", HVal.hRef 1)], [("a", HVal.hInt 1)]] 1 "x"
          (HVal.hInt 7)).1 0 "k"
      = some
          (heapGet
            (hPocketSet [[("k", HVal.hRef 1)], [("a", HVal.hInt 1)]] 1 "x"
              (HVal.hInt 7)).1 1) := by
  exact getAsSubPocket_shares_parent_mapping
    [[("k", HVal.hRef 1)], [("a", HVal.hInt 1)]] 0 1 "k" "x" (HVal.hInt 7)
    (by decide) rfl

/-- C6 counterexample: the claim fails as stated in two places.  First, false
is not returned only for the set; the string 0.00 is outside
the set no/false/0 yet casts to false.  Second, the claimed pattern shape
(optional sign, digits, optional fractional part, optional exponent) accepts
0e5, for which the claim then predicts (int)(float(s)) != 0, i.e. false, but
the code regex rejects 0e5 (its exponent is only allowed after a fractional
part), so the code returns true. -/
theorem castBoolean_claim_counterexample :
    (castSafe (PyVal.str "0.00") PyType.bool PyVal.none
        = Except.ok (PyVal.bool false) ∧
      "0.00".toLower ≠ "no" ∧ "0.00".toLower ≠ "false" ∧
      "0.00".toLower ≠ "0") ∧
    (specDecimalShape "0e5" = true ∧ pyFloatParse "0e5" = some 0 ∧
      ratTrunc 0 = 0 ∧ decimalMatch "0e5" = false ∧
      castSafe (PyVal.str "0e5") PyType.bool PyVal.none
        = Except.ok (PyVal.bool true)) := by
  have hlow : "0.00".toLower = "0.00" := by with_unfolding_all rfl
  refine ⟨⟨by with_unfolding_all rfl, by rw [hlow]; decide, by rw [hlow]; decide,
      by rw [hlow]; decide⟩,
    ⟨rfl, by with_unfolding_all rfl, by decide, rfl,
      by with_unfolding_all rfl⟩⟩

/-- C6 amended: the boolean cast of a string s returns false if (not only if)
the case-insensitive form of s is in the set no/false/0; otherwise, if s
matches the code decimal regex -?digits(,digits)*(.digits(e digits)?)? it
returns trunc(float(s)) != 0 when s parses as a float and raises TypeError
when it does not (comma-grouped strings match the regex but fail float());
otherwise it returns true.  The concrete table: no, false, 0 and 0.00 give
false; 1 and 13.37 give true; the non-strings 0 and -1 give false and true
through the native bool() conversion. -/
theorem castBoolean_cases_and_table :
    (∀ (s : String) (d : PyVal),
        (s.toLower = "no" ∨ s.toLower = "false" ∨ s.toLower = "0") →
        castSafe (PyVal.str s) PyType.bool d = Except.ok (PyVal.bool false)) ∧
    (∀ (s : String) (d : PyVal) (q : ℚ),
        ¬(s.toLower = "no" ∨ s.toLower = "false" ∨ s.toLower = "0") →
        decimalMatch s = true → pyFloatParse s = some q →
        castSafe (PyVal.str s) PyType.bool d
          = Except.ok (PyVal.bool (ratTrunc q != 0))) ∧
    (∀ (s : String) (d : PyVal),
        ¬(s.toLower = "no" ∨ s.toLower = "false" ∨ s.toLower = "0") →
        decimalMatch s = true → pyFloatParse s = Option.none →
        castSafe (PyVal.str s) PyType.bool d = Except.error PyErr.typeError) ∧
    (∀ (s : String) (d : PyVal),
        ¬(s.toLower = "no" ∨ s.toLower = "false" ∨ s.toLower = "0") →
        decimalMatch s = false →
        castSafe (PyVal.str s) PyType.bool d = Except.ok (PyVal.bool true)) ∧
    (castSafe (PyVal.str "no") PyType.bool PyVal.none
        = Except.ok (PyVal.bool false) ∧
      castSafe (PyVal.str "false") PyType.bool PyVal.none
        = Except.ok (PyVal.bool false) ∧
      castSafe (PyVal.str "0") PyType.bool PyVal.none
        = Except.ok (PyVal.bool false) ∧
      castSafe (PyVal.str "1") PyType.bool PyVal.none
        = Except.ok (PyVal.bool true) ∧
      castSafe (PyVal.str "13.37") PyType.bool PyVal.none
        = Except.ok (PyVal.bool true) ∧
      castSafe (PyVal.str "0.00") PyType.bool PyVal.none
        = Except.ok (PyVal.bool false) ∧
      castSafe (PyVal.int 0) PyType.bool PyVal.none
        = Except.ok (PyVal.bool false) ∧
      castSafe (PyVal.int (-1)) PyType.bool PyVal.none
        = Except.ok (PyVal.bool true)) := by
  refine ⟨?_, ?_, ?_, ?_, ?_⟩
  · intro s d hset
    simp only [castSafe]
    rw [if_pos hset]
  · intro s d q hset hm hq
    simp only [castSafe]
    rw [if_neg hset, if_pos hm]
    simp [hq, pyIntOf]
  · intro s d hset hm hq
    simp only [castSafe]
    rw [if_neg hset, if_pos hm]
    simp [hq, pyIntOf]
  · intro s d hset hm
    simp only [castSafe]
    rw [if_neg hset, if_neg (by simp [hm] : ¬decimalMatch s = true)]
  · exact ⟨by with_unfolding_all rfl, by with_unfolding_all rfl,
      by with_unfolding_all rfl, by with_unfolding_all rfl,
      by with_unfolding_all rfl, by with_unfolding_all rfl, rfl, rfl⟩

/-- C6 amended witness: each hypothesis-bearing case of the amended theorem at
a concrete input: the set case at No, the matched-and-parsed case at 2, the
matched-but-unparsable case at 1,2 (TypeError), and the unmatched case at
abc. -/
theorem castBoolean_cases_and_table_witness :
    castSafe (PyVal.str "No") PyType.bool PyVal.none
      = Except.ok (PyVal.bool false) ∧
    castSafe (PyVal.str "2") PyType.bool (PyVal.int 0)
      = Except.ok (PyVal.bool (ratTrunc 2 != 0)) ∧
    castSafe (PyVal.str "1,2") PyType.bool PyVal.none
      = Except.error PyErr.typeError ∧
    castSafe (PyVal.str "abc") PyType.bool PyVal.none
      = Except.ok (PyVal.bool true) := by
  refine ⟨castBoolean_cases_and_table.1 "No" PyVal.none ?_,
    castBoolean_cases_and_table.2.1 "2" (PyVal.int 0) 2 ?_ rfl
      (by with_unfolding_all rfl),
    castBoolean_cases_and_table.2.2.1 "1,2" PyVal.none ?_ rfl rfl,
    castBoolean_cases_and_table.2.2.2.1 "abc" PyVal.none ?_ rfl⟩
  · exact Or.inl (by with_unfolding_all rfl)
  · exact toLower_outside_set "2" "2" (by with_unfolding_all rfl)
      (by decide) (by decide) (by decide)
  · exact toLower_outside_set "1,2" "1,2" (by with_unfolding_all rfl)
      (by decide) (by decide) (by decide)
  · exact toLower_outside_set "abc" "abc" (by with_unfolding_all rfl)
      (by decide) (by decide) (by decide)

/-- C7 (code_bug exhibit): the claim that the typed readers never raise is
right as a specification, but the code only catches ValueError, so a cast
that raises TypeError propagates to the caller.  getAsInt on a stored list
raises TypeError (int of a list) instead of returning the default 5, and
getAsBoolean on the stored string 1,234 - which matches the comma-group
decimal regex but fails float() - raises TypeError from int(None). -/
theorem getAsInt_on_list_raises_typeError :
    getAsType [("k", PyVal.list [PyVal.int 1])] "k" (PyVal.int 5) PyType.int
      = Except.error PyErr.typeError ∧
    getAsType [("k", PyVal.str "1,234")] "k" (PyVal.bool false) PyType.bool
      = Except.error PyErr.typeError := by
  exact ⟨rfl, by with_unfolding_all rfl⟩

/-- C8: for every key k and value v, set(k, v) fires the change event exactly
once when k is absent or the stored value differs (Python structural
equality), arming the debounce timer at the current time; and when v equals
the stored value it is a complete no-op: no state change, no change event,
debounce timestamp unchanged. -/
theorem set_fires_event_iff_changed :
    ∀ (s : NVState) (now : Nat) (k : String) (v : PyVal),
      ((dictLookup s.prefs k = Option.none ∨
          ∃ old, dictLookup s.prefs k = some old ∧ pyEq old v = false) →
        (pocketSet s.prefs k v).events = 1 ∧
        (nvSet s now k v).prefs = dictInsert s.prefs k v ∧
        (nvSet s now k v).lastTimerCheck = some now) ∧
      (∀ old, dictLookup s.prefs k = some old → pyEq old v = true →
        (pocketSet s.prefs k v).events = 0 ∧ nvSet s now k v = s) := by
  intro s now k v
  constructor
  · intro hchanged
    have hev : pocketSet s.prefs k v
        = { prefs := dictInsert s.prefs k v, events := 1 } := by
      rcases hchanged with hnone | ⟨old, hold, hne⟩
      · simp [pocketSet, hnone]
      · simp [pocketSet, hold, hne]
    refine ⟨by rw [hev], ?_, ?_⟩ <;> simp [nvSet, hev]
  · intro old hold heq
    have hev : pocketSet s.prefs k v = { prefs := s.prefs, events := 0 } := by
      simp [pocketSet, hold, heq]
    exact ⟨by rw [hev], by simp [nvSet, hev]⟩

/-- C8 witness: on the store x maps-to int 1, setting x to int 2 fires exactly
one event and arms the timer at time 9; setting x to float 1.0 (Python-equal
to int 1) is a complete no-op. -/
theorem set_fires_event_iff_changed_witness :
    ((pocketSet [("x", PyVal.int 1)] "x" (PyVal.int 2)).events = 1 ∧
      (nvSet sampleNV 9 "x" (PyVal.int 2)).lastTimerCheck = some 9) ∧
    nvSet sampleNV 9 "x" (PyVal.float 1) = sampleNV := by
  refine ⟨⟨?_, ?_⟩, ?_⟩
  · exact ((set_fires_event_iff_changed sampleNV 9 "x" (PyVal.int 2)).1
      (Or.inr ⟨PyVal.int 1, rfl, by with_unfolding_all rfl⟩)).1
  · exact ((set_fires_event_iff_changed sampleNV 9 "x" (PyVal.int 2)).1
      (Or.inr ⟨PyVal.int 1, rfl, by with_unfolding_all rfl⟩)).2.2
  · exact ((set_fires_event_iff_changed sampleNV 9 "x" (PyVal.float 1)).2
      (PyVal.int 1) rfl (by with_unfolding_all rfl)).2

/-- C9: on a store containing a maps-to 1, b maps-to 2, c maps-to 3,
backupAndSetup with keysToBackup = b and settingsToAdd = d maps-to 4 leaves
the final on-disk state exactly b maps-to 2, d maps-to 4: it snapshots b,
erases everything with restart, re-sets the snapshot, sets the added setting,
then force-saves. -/
theorem backupAndSetup_final_disk_state :
    ∀ (f : Option PyDict) (lt : Option Nat) (r : Bool) (now : Nat),
      (nvBackupAndSetup
          { prefs := [("a", PyVal.int 1), ("b", PyVal.int 2),
              ("c", PyVal.int 3)], file := f, lastTimerCheck := lt,
            running := r } now ["b"] [("d", PyVal.int 4)]).file
        = some [("b", PyVal.int 2), ("d", PyVal.int 4)] := by
  intro f lt r now
  rfl

/-- C10: constructing a Pocket from another Pocket always raises
AssertionError with assertions enabled: that branch asserts
isinstance(preferences, dict), and a Pocket is never a dict, so the
documented deep-copy-from-another-store path can never complete. -/
theorem pocketInit_from_pocket_always_raises :
    ∀ p : PyDict,
      pocketInit (InitArg.fromPocket p) = Except.error PyErr.assertionError := by
  intro p
  rfl

end Smeagol
